import Mathlib

/-!
Shallow embedding of the `a_duk` terminal virtual-pet engine
(`src/pet.rs` and `src/main.rs`).

Conventions:
* machine integers (`u32`, `u64`, `usize`) are `Nat` with explicit `2 ^ w`
  bounds where overflow matters; `usize` is taken at 64 bits;
* fallible Rust code returning `Result<_, Error>` becomes `Except Error _`;
* a Rust panic (`unwrap` on `None`/`Err`, out-of-bounds index) is modelled
  by an outer `Option`: `none` means the code panics;
* filesystem reads are parameters: a directory is represented by the list
  of file names it yields and a `String → Except Error String` content map;
* the embedded Lua interpreter is represented by the observable data the
  engine exchanges with it: which of the four well-known globals a script
  leaves defined, and the sequence of `set_current_anim` calls a handler
  performs.
-/

namespace ADuk

/-! ### Decimal parsing (`str::parse::<uN>`)

Rust's unsigned decimal parser: an optional leading `+`, then one or more
ASCII digits, rejecting overflow past `2 ^ bits - 1`. -/

def parseUIntStr (bits : Nat) (s : String) : Option Nat :=
  let cs :=
    match s.data with
    | '+' :: rest => rest
    | other => other
  if !cs.isEmpty && cs.all Char.isDigit then
    let v := cs.foldl (fun a c => a * 10 + (c.toNat - 48)) 0
    if v < 2 ^ bits then some v else none
  else none

def parseUsizeStr (s : String) : Option Nat :=
  parseUIntStr 64 s

def parseU32Str (s : String) : Option Nat :=
  parseUIntStr 32 s

/-- Model of `filename.strip_suffix(".txt")`. -/
def stripDotTxt (s : String) : Option String :=
  let cs := s.data
  if cs.drop (cs.length - 4) = ".txt".data then
    some (String.mk (cs.take (cs.length - 4)))
  else none

/-! ### The error enum of `pet.rs`

Payloads that carry environment data (`io::Error`, toml errors, the raw
`OsString`, `mlua::Error`) are dropped; only `InvalidObject` keeps its
static message, which the code matches on. `IOFail` renders the source's
I/O error variant. -/

inductive Error where
  | IOFail : Error
  | TomlDeserializer : Error
  | Utf8 : Error
  | InvalidFileName : Error
  | Lua : Error
  | InvalidObject : String → Error
deriving DecidableEq

/-! ### Animations (`Animation::load`, pet.rs lines 64-107) -/

structure AnimationMetadata where
  delay : Nat
deriving DecidableEq

structure Animation where
  name : String
  metadata : AnimationMetadata
  frames : List String
deriving DecidableEq

/-- The frame-file filter of `Animation::load`: keeps entries whose name
ends in `.txt` and whose prefix parses as a `usize`. -/
def acceptsFrameFile (filename : String) : Bool :=
  (stripDotTxt filename).isSome &&
    ((stripDotTxt filename).bind parseUsizeStr).isSome

/-- The sort key of `Animation::load`'s `sort_by_key`: strips `.txt` and
parses the prefix as a `u32`; `none` models the `unwrap` panic. -/
def frameSortKey (filename : String) : Option Nat :=
  (stripDotTxt filename).bind parseU32Str

def frameKeyD (filename : String) : Nat :=
  (frameSortKey filename).getD 0

/-- The sort order of `sort_by_key`: ascending parsed key. -/
def frameLE (a b : String) : Prop :=
  frameKeyD a ≤ frameKeyD b

instance : DecidableRel frameLE :=
  fun a b => Nat.decLe (frameKeyD a) (frameKeyD b)

instance : IsTotal String frameLE :=
  ⟨fun a b => Nat.le_total (frameKeyD a) (frameKeyD b)⟩

instance : IsTrans String frameLE :=
  ⟨fun _ _ _ => Nat.le_trans⟩

/-- Filter then stable sort of the frame files, as in `Animation::load`.
Rust's `sort_by_key` is a stable sort and only evaluates the key function
during comparisons, so with at most one accepted file no key is computed;
otherwise every accepted file's key is forced and a failed `u32` parse
panics (`none`). A stable sort is determined, as a function, by the order
and the input, so the library's stable `insertionSort` models it. -/
def sortFrameFiles (files : List String) : Option (List String) :=
  if decide ((files.filter acceptsFrameFile).length ≤ 1) ||
      (files.filter acceptsFrameFile).all (fun f => (frameSortKey f).isSome) then
    some ((files.filter acceptsFrameFile).insertionSort frameLE)
  else none

/-- Model of `frame_files.iter().map(read_to_string).collect::<Result<_,_>>()`:
reads each file in order, stopping at the first error. -/
def collectContents (content : String → Except Error String) :
    List String → Except Error (List String)
  | [] => .ok []
  | f :: rest =>
    match content f with
    | .error e => .error e
    | .ok c =>
      match collectContents content rest with
      | .error e => .error e
      | .ok tail => .ok (c :: tail)

/-- `Animation::load` (pet.rs lines 65-106). `nameR` is the outcome of the
directory-name extraction, `metaR` the outcome of reading `meta.toml`,
`listR` the outcome of `read_dir`, `content` the per-file read. The outer
`Option` is `none` when the sort's `u32` `unwrap` panics. -/
def Animation.load (nameR : Except Error String)
    (metaR : Except Error AnimationMetadata)
    (listR : Except Error (List String))
    (content : String → Except Error String) :
    Option (Except Error Animation) :=
  match nameR with
  | .error e => some (.error e)
  | .ok name =>
    match metaR with
    | .error e => some (.error e)
    | .ok metadata =>
      match listR with
      | .error e => some (.error e)
      | .ok files =>
        match sortFrameFiles files with
        | none => none
        | some sorted =>
          if sorted.isEmpty then
            some (.error (.InvalidObject "Animation contains no frames"))
          else
            match collectContents content sorted with
            | .error e => some (.error e)
            | .ok frames => some (.ok { name := name, metadata := metadata, frames := frames })

/-! ### States (`State::load`, pet.rs lines 109-176) -/

structure StateMetadata where
  animation : String
  update_delay : Nat
deriving DecidableEq

/-- Which of the four well-known globals are present (and callable) in the
interpreter after a state script has executed. -/
structure ScriptGlobals where
  hasInit : Bool
  hasUpdate : Bool
  hasKeyDown : Bool
  hasKeyUp : Bool
deriving DecidableEq

/-- `StateEventHandlers`: `true` models `Some(function)`. -/
structure StateEventHandlers where
  init : Bool
  update : Bool
  key_down : Bool
  key_up : Bool
deriving DecidableEq

/-- `StateEventHandlers::get_from`: each global's presence, via `.ok()`. -/
def StateEventHandlers.get_from (g : ScriptGlobals) : StateEventHandlers :=
  { init := g.hasInit, update := g.hasUpdate,
    key_down := g.hasKeyDown, key_up := g.hasKeyUp }

/-- The fields of `State` the engine reads (`init_function` and
`update_function` are never used after load; their mandatory lookups are
kept in `State.load` below). -/
structure State where
  metadata : StateMetadata
  event_handlers : StateEventHandlers
deriving DecidableEq

/-- `State::load` (pet.rs lines 155-175): metadata, then the directory
name, then script read+exec (`scriptR`), then the two mandatory
`globals().get` lookups of `Init` and `Update` (each failing with a Lua
conversion error when the global is absent), then `get_from`. -/
def State.load (metaR : Except Error StateMetadata)
    (nameR : Except Error String)
    (scriptR : Except Error ScriptGlobals) : Except Error State :=
  match metaR with
  | .error e => .error e
  | .ok metadata =>
    match nameR with
    | .error e => .error e
    | .ok _name =>
      match scriptR with
      | .error e => .error e
      | .ok g =>
        if !g.hasInit then .error .Lua
        else if !g.hasUpdate then .error .Lua
        else .ok { metadata := metadata,
                   event_handlers := StateEventHandlers.get_from g }

/-! ### The pet (`Pet::load`, pet.rs lines 178-254) -/

structure PetMetadata where
  name : String
  description : String
  default_state : String
  global_tick_delay : Nat
deriving DecidableEq

/-- One enumerated subdirectory of `anim/`: the outcome of
`file_name().into_string()`, of reading its `meta.toml`, its file listing
and per-file contents. -/
structure AnimDirInput where
  name : Except Error String
  meta : Except Error AnimationMetadata
  files : List String
  content : String → Except Error String

/-- One enumerated subdirectory of `state/`. -/
structure StateDirInput where
  name : Except Error String
  meta : Except Error StateMetadata
  script : Except Error ScriptGlobals

/-- A pet directory as `Pet::load` consumes it. -/
structure PetFS where
  meta : Except Error PetMetadata
  animDirs : Except Error (List AnimDirInput)
  stateDirs : Except Error (List StateDirInput)

structure Pet where
  metadata : PetMetadata
  animations : List (String × Animation)
  states : List (String × State)
deriving DecidableEq

/-- The `for animation_path in animation_dirs` loop: key name first
(`Utf8` error), then `Animation::load` (whose own name extraction succeeds
whenever the key did). `none` propagates a panic. -/
def loadAnimations : List AnimDirInput → Option (Except Error (List (String × Animation)))
  | [] => some (.ok [])
  | d :: rest =>
    match d.name with
    | .error e => some (.error e)
    | .ok key =>
      match Animation.load (.ok key) d.meta (.ok d.files) d.content with
      | none => none
      | some (.error e) => some (.error e)
      | some (.ok a) =>
        match loadAnimations rest with
        | none => none
        | some (.error e) => some (.error e)
        | some (.ok tail) => some (.ok ((key, a) :: tail))

/-- The `for state_path in state_dirs` loop. -/
def loadStates : List StateDirInput → Except Error (List (String × State))
  | [] => .ok []
  | d :: rest =>
    match d.name with
    | .error e => .error e
    | .ok key =>
      match State.load d.meta (.ok key) d.script with
      | .error e => .error e
      | .ok st =>
        match loadStates rest with
        | .error e => .error e
        | .ok tail => .ok ((key, st) :: tail)

/-- `Pet::load` (pet.rs lines 207-253): metadata, the animation loop, the
state loop, then the struct — with no resolvability check of
`default_state` or of any state's `animation` field. -/
def Pet.load (fs : PetFS) : Option (Except Error Pet) :=
  match fs.meta with
  | .error e => some (.error e)
  | .ok metadata =>
    match fs.animDirs with
    | .error e => some (.error e)
    | .ok ads =>
      match loadAnimations ads with
      | none => none
      | some (.error e) => some (.error e)
      | some (.ok animations) =>
        match fs.stateDirs with
        | .error e => some (.error e)
        | .ok sds =>
          match loadStates sds with
          | .error e => .some (.error e)
          | .ok states =>
            some (.ok { metadata := metadata, animations := animations, states := states })

/-! ### The runtime loop state (main.rs)

`current_state` is bound once (main.rs line 60) and never reassigned, so
it is a parameter rather than a field. `Instant`s are `Nat` milliseconds;
`duration_since` saturates at zero, matching truncated `Nat` subtraction. -/

structure TickState where
  current_anim : String
  current_frame : Nat
  last_render : Nat
  last_update : Nat
deriving DecidableEq

/-- `next_frame` (main.rs lines 152-158). -/
def next_frame (frame : Nat) (animation : Animation) : Nat :=
  if frame < animation.frames.length - 1 then frame + 1 else 0

/-- Loop initialisation (main.rs lines 60-68): `current_state` is the
pet's `default_state`; `current_anim` comes from that state's metadata
(`unwrap` panic — `none` — when `default_state` is not a key of `states`). -/
def initRuntime (pet : Pet) (start : Nat) : Option (String × TickState) :=
  match pet.states.lookup pet.metadata.default_state with
  | none => none
  | some st =>
    some (pet.metadata.default_state,
      { current_anim := st.metadata.animation, current_frame := 0,
        last_render := start, last_update := start })

/-- `get_current_anim` registration (main.rs lines 72-79): the closure
captures a clone of `current_anim` taken at registration time and returns
that captured value on every call. -/
def registerGetCurrentAnim (current_anim : String) : Unit → String :=
  let current_anim_closure := current_anim
  fun _ => current_anim_closure

/-- `set_current_anim` (main.rs lines 84-93): writes the given name into
`current_anim` and resets `current_frame` to 0, with no validation. -/
def set_current_anim (s : TickState) (anim_name : String) : TickState :=
  { s with current_anim := anim_name, current_frame := 0 }

/-- A Lua handler's observable effect on the loop state: the sequence of
`set_current_anim` calls it performs, applied in order. -/
def applyScriptCalls (calls : List String) (s : TickState) : TickState :=
  calls.foldl set_current_anim s

/-- The render half of one tick (main.rs lines 103-121): the `state`
lookup, the render gate — whose delay the code reads from
`pet.animations.get(current_state)` — then the `current_anim` lookup, the
frame indexing, the end-of-cycle reversion check, `next_frame` against the
animation that was just displayed, and `last_render = now`. `none` models
any of the `unwrap`/indexing panics; the second component is the rendered
frame text, `none` when the gate has not elapsed. -/
def renderStep (pet : Pet) (current_state : String) (now : Nat) (s : TickState) :
    Option (TickState × Option String) :=
  match pet.states.lookup current_state with
  | none => none
  | some state =>
    match pet.animations.lookup current_state with
    | none => none
    | some gateAnim =>
      if gateAnim.metadata.delay ≤ now - s.last_render then
        match pet.animations.lookup s.current_anim with
        | none => none
        | some anim =>
          match anim.frames.get? s.current_frame with
          | none => none
          | some frame =>
            let (anim2, frame2) :=
              if s.current_frame = anim.frames.length - 1 ∧
                  anim.name ≠ state.metadata.animation then
                (state.metadata.animation, 0)
              else
                (s.current_anim, s.current_frame)
            some ({ current_anim := anim2, current_frame := next_frame frame2 anim,
                    last_render := now, last_update := s.last_update }, some frame)
      else
        some (s, none)

/-- The update half of one tick (main.rs lines 123-131): fires when the
state has an `update` handler and the update delay has elapsed; the
handler's `set_current_anim` calls are `calls`; `last_update = now` on
firing. The second component is whether the handler fired. -/
def updateStep (state : State) (calls : List String) (now : Nat) (s : TickState) :
    TickState × Bool :=
  if state.event_handlers.update = true ∧
      state.metadata.update_delay ≤ now - s.last_update then
    ({ applyScriptCalls calls s with last_update := now }, true)
  else
    (s, false)

/-! ### Concrete fixtures -/

/-- A two-frame animation named `blink` with frame delay 10 ms. -/
def blinkAnim : Animation :=
  { name := "blink", metadata := { delay := 10 }, frames := ["b0", "b1"] }

/-- A two-frame animation named `wave` with frame delay 10 ms. -/
def waveAnim : Animation :=
  { name := "wave", metadata := { delay := 10 }, frames := ["w0", "w1"] }

/-- An animation that happens to share the name of the `idle` state, with
frame delay 1000 ms. -/
def idleGateAnim : Animation :=
  { name := "idle", metadata := { delay := 1000 }, frames := ["g0"] }

/-- The `idle` state: default animation `blink`, update delay 50 ms, with
`Init` and `Update` handlers. -/
def idleState : State :=
  { metadata := { animation := "blink", update_delay := 50 },
    event_handlers := { init := true, update := true, key_down := false, key_up := false } }

/-- A pet whose animation names (`blink`, `wave`) do not include the name
of its only state (`idle`). -/
def petNoGate : Pet :=
  { metadata := { name := "p", description := "d", default_state := "idle",
                  global_tick_delay := 100 },
    animations := [("blink", blinkAnim), ("wave", waveAnim)],
    states := [("idle", idleState)] }

/-- Like `petNoGate`, but with an animation coincidentally named `idle`. -/
def petWithGate : Pet :=
  { metadata := { name := "p", description := "d", default_state := "idle",
                  global_tick_delay := 100 },
    animations := [("idle", idleGateAnim), ("blink", blinkAnim), ("wave", waveAnim)],
    states := [("idle", idleState)] }

/-- A loop state displaying `blink` at frame 0 with both timers at 0. -/
def s0 : TickState :=
  { current_anim := "blink", current_frame := 0, last_render := 0, last_update := 0 }

/-- A loop state displaying the override animation `wave` at its last
frame (frame 1 of 2). -/
def sWave : TickState :=
  { current_anim := "wave", current_frame := 1, last_render := 0, last_update := 0 }

instance {ε α : Type} [DecidableEq ε] [DecidableEq α] : DecidableEq (Except ε α) := fun x y =>
  match x, y with
  | .ok a, .ok b =>
    if h : a = b then isTrue (h ▸ rfl) else isFalse fun hc => h (Except.ok.inj hc)
  | .error a, .error b =>
    if h : a = b then isTrue (h ▸ rfl) else isFalse fun hc => h (Except.error.inj hc)
  | .ok _, .error _ => isFalse fun hc => Except.noConfusion hc
  | .error _, .ok _ => isFalse fun hc => Except.noConfusion hc

/-! ### Success predicates for the load pipeline -/

def exceptOk {α : Type} : Except Error α → Bool
  | .ok _ => true
  | .error _ => false

def loadOk {α : Type} : Option (Except Error α) → Bool
  | some (.ok _) => true
  | _ => false

/-- The conditions `Animation::load` puts on the frame files of one
directory: no sort panic, at least one accepted file, every accepted
file readable. -/
def animFilesOk (d : AnimDirInput) : Bool :=
  (decide ((d.files.filter acceptsFrameFile).length ≤ 1) ||
      (d.files.filter acceptsFrameFile).all fun f => (frameSortKey f).isSome) &&
    (!(d.files.filter acceptsFrameFile).isEmpty &&
      (d.files.filter acceptsFrameFile).all fun f => exceptOk (d.content f))

/-- Componentwise success of one `anim/` subdirectory. -/
def animDirOk (d : AnimDirInput) : Bool :=
  exceptOk d.name && (exceptOk d.meta && animFilesOk d)

/-- Componentwise success of one `state/` subdirectory: name and metadata
readable, script executed, and both `Init` and `Update` defined (the two
mandatory lookups of `State::load`). -/
def stateDirOk (d : StateDirInput) : Bool :=
  exceptOk d.name && (exceptOk d.meta &&
    (match d.script with
     | .error _ => false
     | .ok g => g.hasInit && g.hasUpdate))

def petLoadOkB (fs : PetFS) : Bool :=
  loadOk (Pet.load fs)

/-- Componentwise success of a whole pet directory — with no condition
relating `default_state` or any state's `animation` to the loaded maps. -/
def fsComponentsOk (fs : PetFS) : Bool :=
  exceptOk fs.meta &&
    ((match fs.animDirs with
      | .error _ => false
      | .ok ads => ads.all animDirOk) &&
     (match fs.stateDirs with
      | .error _ => false
      | .ok sds => sds.all stateDirOk))

/-- A pet directory whose components all load, but whose `default_state`
(`idle`) is not among its states (`main`) and whose only state's default
animation (`missing_anim`) is not among its animations (`blink`). -/
def fsUnresolved : PetFS :=
  { meta := .ok { name := "p", description := "d", default_state := "idle",
                  global_tick_delay := 100 },
    animDirs := .ok [{ name := .ok "blink", meta := .ok { delay := 10 },
                       files := ["0.txt", "1.txt"], content := fun f => .ok f }],
    stateDirs := .ok [{ name := .ok "main",
                        meta := .ok { animation := "missing_anim", update_delay := 50 },
                        script := .ok { hasInit := true, hasUpdate := true,
                                        hasKeyDown := false, hasKeyUp := false } }] }

/-- The pet that `Pet.load` produces from `fsUnresolved`. -/
def petUnresolved : Pet :=
  { metadata := { name := "p", description := "d", default_state := "idle",
                  global_tick_delay := 100 },
    animations := [("blink", { name := "blink", metadata := { delay := 10 },
                               frames := ["0.txt", "1.txt"] })],
    states := [("main", { metadata := { animation := "missing_anim", update_delay := 50 },
                          event_handlers := { init := true, update := true,
                                              key_down := false, key_up := false } })] }

/-- Content map used by the frame-ordering example: the content of file
`f` is the string `content:f`. -/
def demoContent : String → Except Error String :=
  fun f => .ok ("content:" ++ f)

/-- The animation the frame-ordering example must load: frames in key
order 0, 2, 10 regardless of enumeration order. -/
def demoExpected : Option (Except Error Animation) :=
  some (.ok { name := "a", metadata := { delay := 100 },
              frames := ["content:0.txt", "content:2.txt", "content:10.txt"] })

/-! ### Claims -/

/-- Claim C1, evaluated at its failing input: the render gate's delay is
read from `animations[current_state]` instead of the resolved
`current_animation`'s metadata. On `petNoGate` (no animation named like
the state `idle`) the first tick panics; on `petWithGate` (an animation
coincidentally named `idle`, delay 1000) no render fires at `now = 500`
although the displayed `blink` animation's delay 10 has elapsed since
`last_render = 0`; when the gate does fire, `last_render` is set to
`now`. -/
theorem c1_render_gate_keyed_by_state :
    renderStep petNoGate "idle" 100 s0 = none ∧
    blinkAnim.metadata.delay ≤ 500 - s0.last_render ∧
    renderStep petWithGate "idle" 500 s0 = some (s0, none) ∧
    renderStep petWithGate "idle" 1000 s0 =
      some ({ current_anim := "blink", current_frame := 1,
              last_render := 1000, last_update := 0 }, some "b0") := by
  decide

/-- Claim C2, evaluated at its failing input: `set_current_anim` stores
any name without validation, so `current_animation` can come to name a
missing key (`ghost`), and the next render tick panics on
`animations.get(&current_anim).unwrap()`. -/
theorem c2_mutator_commits_unknown_name :
    (set_current_anim s0 "ghost").current_anim = "ghost" ∧
    petWithGate.animations.lookup "ghost" = none ∧
    renderStep petWithGate "idle" 1000 (set_current_anim s0 "ghost") = none := by
  decide

/-- Claim C3, evaluated at its failing input: the registered
`get_current_anim` closure returns the clone of `current_anim` captured
at registration time (`blink`), not the live value after a
`set_current_anim("wave")` mutation. -/
theorem c3_accessor_returns_registration_snapshot :
    registerGetCurrentAnim "blink" () = "blink" ∧
    (set_current_anim s0 "wave").current_anim = "wave" ∧
    registerGetCurrentAnim "blink" () ≠ (set_current_anim s0 "wave").current_anim := by
  decide

/-- Claim C4, counterexample: rendering the last frame of the two-frame
override animation `wave` (state default `blink`) does revert
`current_anim` to `blink`, but the subsequent `next_frame` call — made
against the completed animation after the reset to 0 — leaves
`current_frame = 1`, not 0 as the claim states. -/
theorem c4_counterexample_frame_not_reset :
    renderStep petWithGate "idle" 1000 sWave =
      some ({ current_anim := "blink", current_frame := 1,
              last_render := 1000, last_update := 0 }, some "w1") ∧
    (renderStep petWithGate "idle" 1000 sWave).map (fun r => r.1.current_frame) ≠ some 0 := by
  decide

/-- Claim C4, amended: at the render that displays the last frame of an
override animation, `current_anim` becomes the state's default animation,
but `current_frame` becomes `next_frame 0` of the completed animation:
0 when that animation has a single frame, 1 otherwise. -/
theorem c4_reversion_amended (pet : Pet) (cs : String) (now : Nat) (s : TickState)
    (state : State) (gateAnim anim : Animation) (frame : String)
    (hstate : pet.states.lookup cs = some state)
    (hgate : pet.animations.lookup cs = some gateAnim)
    (hdelay : gateAnim.metadata.delay ≤ now - s.last_render)
    (hanim : pet.animations.lookup s.current_anim = some anim)
    (hframe : anim.frames.get? s.current_frame = some frame)
    (hlast : s.current_frame = anim.frames.length - 1)
    (hdiff : anim.name ≠ state.metadata.animation) :
    renderStep pet cs now s =
      some ({ current_anim := state.metadata.animation,
              current_frame := if anim.frames.length ≤ 1 then 0 else 1,
              last_render := now, last_update := s.last_update }, some frame) := by
  simp only [renderStep, hstate, hgate, hanim, hframe]
  rw [if_pos hdelay]
  rw [if_pos ⟨hlast, hdiff⟩]
  unfold next_frame
  by_cases h : anim.frames.length ≤ 1
  · rw [if_pos h]
    have : ¬ (0 < anim.frames.length - 1) := by omega
    rw [if_neg this]
  · rw [if_neg h]
    have : 0 < anim.frames.length - 1 := by omega
    rw [if_pos this]

/-- Closed witness for `c4_reversion_amended` at the `petWithGate`
fixture with `now = 2000`. -/
theorem c4_reversion_amended_witness :
    renderStep petWithGate "idle" 2000 sWave =
      some ({ current_anim := "blink",
              current_frame := if waveAnim.frames.length ≤ 1 then 0 else 1,
              last_render := 2000, last_update := 0 }, some "w1") :=
  c4_reversion_amended petWithGate "idle" 2000 sWave idleState idleGateAnim waveAnim "w1"
    (by decide) (by decide) (by decide) (by decide) (by decide) (by decide) (by decide)

/-- Claim C5, evaluated at its failing input: a state script that leaves
`Init` (or `Update`) undefined makes `State::load` fail with a Lua error
— the mandatory `globals().get` lookups at pet.rs lines 169-170 — while
absent `Key_down`/`Key_up` are indeed tolerated with the handler unset. -/
theorem c5_absent_init_or_update_is_load_error :
    State.load (.ok { animation := "blink", update_delay := 50 }) (.ok "idle")
        (.ok { hasInit := false, hasUpdate := false, hasKeyDown := false, hasKeyUp := false })
      = .error .Lua ∧
    State.load (.ok { animation := "blink", update_delay := 50 }) (.ok "idle")
        (.ok { hasInit := true, hasUpdate := false, hasKeyDown := true, hasKeyUp := true })
      = .error .Lua ∧
    State.load (.ok { animation := "blink", update_delay := 50 }) (.ok "idle")
        (.ok { hasInit := true, hasUpdate := true, hasKeyDown := false, hasKeyUp := false })
      = .ok { metadata := { animation := "blink", update_delay := 50 },
              event_handlers := { init := true, update := true,
                                  key_down := false, key_up := false } } := by
  decide

/-- Claim C10: the frame filter accepts `5000000000.txt` (its prefix
parses as a 64-bit `usize`), but the sort key's `parse::<u32>().unwrap()`
fails on it (5000000000 ≥ 2^32), so sorting an animation directory that
contains it alongside another frame panics, and so does
`Animation::load`. -/
theorem c10_filter_sortkey_width_mismatch :
    acceptsFrameFile "5000000000.txt" = true ∧
    parseUsizeStr "5000000000" = some 5000000000 ∧
    parseU32Str "5000000000" = none ∧
    frameSortKey "5000000000.txt" = none ∧
    sortFrameFiles ["0.txt", "5000000000.txt"] = none ∧
    Animation.load (.ok "big") (.ok { delay := 10 }) (.ok ["0.txt", "5000000000.txt"])
        (fun f => .ok f) = none := by
  decide

/-- Claim C8: the update handler fires exactly when the active state has
an `update` handler and the update delay has elapsed since `last_update`;
on firing, `last_update` is set to `now`; a state without an `update`
handler never fires, whatever the elapsed time. -/
theorem c8_update_gate (state : State) (calls : List String) (now : Nat) (s : TickState) :
    ((updateStep state calls now s).2 = true ↔
      state.event_handlers.update = true ∧
        state.metadata.update_delay ≤ now - s.last_update) ∧
    ((updateStep state calls now s).2 = true →
      (updateStep state calls now s).1.last_update = now) ∧
    (state.event_handlers.update = false → updateStep state calls now s = (s, false)) := by
  unfold updateStep
  by_cases h : state.event_handlers.update = true ∧
      state.metadata.update_delay ≤ now - s.last_update
  · rw [if_pos h]
    exact ⟨⟨fun _ => h, fun _ => rfl⟩, fun _ => rfl, fun hf => absurd h.1 (by simp [hf])⟩
  · rw [if_neg h]
    exact ⟨⟨fun hc => absurd hc (by simp), fun hc => absurd hc h⟩,
           fun hc => absurd hc (by simp), fun _ => rfl⟩

/-- Closed witness for `c8_update_gate`: with the `idle` state (update
delay 50, handler present) and `now = 50`, the handler fires and
`last_update` becomes 50. -/
theorem c8_update_gate_witness :
    (updateStep idleState [] 50 s0).2 = true ∧
    (updateStep idleState [] 50 s0).1.last_update = 50 := by
  have h := c8_update_gate idleState [] 50 s0
  exact ⟨h.1.mpr (by decide), h.2.1 (h.1.mpr (by decide))⟩

/-- `collectContents` succeeds on exactly as many frames as it was given. -/
theorem collectContents_ok_length (content : String → Except Error String) :
    ∀ (l out : List String), collectContents content l = .ok out → out.length = l.length := by
  intro l
  induction l with
  | nil => intro out h; cases h; rfl
  | cons f rest ih =>
    intro out h
    unfold collectContents at h
    cases hc : content f with
    | error e => rw [hc] at h; cases h
    | ok c =>
      rw [hc] at h
      cases hr : collectContents content rest with
      | error e => rw [hr] at h; cases h
      | ok tail =>
        rw [hr] at h
        cases h
        simp [ih tail hr]

/-- Claim C9: an animation directory with zero files matching the
`<integer>.txt` convention makes `Animation::load` return the
`InvalidObject "Animation contains no frames"` error, and a successful
`Animation::load` never carries an empty frame sequence. -/
theorem c9_empty_animation_is_error :
    (∀ (name : String) (meta : AnimationMetadata) (files : List String)
        (content : String → Except Error String),
        files.filter acceptsFrameFile = [] →
        Animation.load (.ok name) (.ok meta) (.ok files) content =
          some (.error (.InvalidObject "Animation contains no frames"))) ∧
    (∀ (nameR : Except Error String) (metaR : Except Error AnimationMetadata)
        (listR : Except Error (List String)) (content : String → Except Error String)
        (a : Animation),
        Animation.load nameR metaR listR content = some (.ok a) → a.frames ≠ []) := by
  constructor
  · intro name meta files content h
    simp [Animation.load, sortFrameFiles, h]
  · intro nameR metaR listR content a h hempty
    unfold Animation.load at h
    cases nameR with
    | error e => cases h
    | ok name =>
      cases metaR with
      | error e => cases h
      | ok meta =>
        cases listR with
        | error e => cases h
        | ok files =>
          dsimp only at h
          cases hs : sortFrameFiles files with
          | none => rw [hs] at h; cases h
          | some sorted =>
            rw [hs] at h
            dsimp only at h
            by_cases he : sorted.isEmpty
            · rw [if_pos he] at h; cases h
            · rw [if_neg he] at h
              cases hc : collectContents content sorted with
              | error e => rw [hc] at h; cases h
              | ok frames =>
                rw [hc] at h
                cases h
                have hlen := collectContents_ok_length content sorted frames hc
                dsimp only at hempty
                rw [hempty] at hlen
                exact he (List.isEmpty_iff.mpr (List.length_eq_zero.mp hlen.symm))

/-- Closed witness for `c9_empty_animation_is_error`: a directory whose
only file is `readme.md` (not a frame file) loads as the
`InvalidObject` error. -/
theorem c9_empty_animation_witness :
    Animation.load (.ok "a") (.ok { delay := 5 }) (.ok ["readme.md"]) (fun f => .ok f) =
      some (.error (.InvalidObject "Animation contains no frames")) :=
  c9_empty_animation_is_error.1 "a" { delay := 5 } ["readme.md"] (fun f => .ok f) (by decide)

/-- Permuted lists agree on `all`. -/
theorem perm_all_eq {α : Type} {l₁ l₂ : List α} (h : l₁.Perm l₂) (p : α → Bool) :
    l₁.all p = l₂.all p := by
  cases h1 : l₁.all p with
  | true =>
    rw [List.all_eq_true] at h1
    exact (List.all_eq_true.mpr fun x hx => h1 x (h.mem_iff.mpr hx)).symm
  | false =>
    cases h2 : l₂.all p with
    | false => rfl
    | true =>
      rw [List.all_eq_true] at h2
      rw [List.all_eq_true.mpr fun x hx => h2 x (h.mem_iff.mp hx)] at h1
      exact Bool.noConfusion h1

/-- Permuted lists agree on `isEmpty`. -/
theorem perm_isEmpty_eq {α : Type} {l₁ l₂ : List α} (h : l₁.Perm l₂) :
    l₁.isEmpty = l₂.isEmpty := by
  cases l₁ with
  | nil => rw [(List.nil_perm).mp h]
  | cons a t =>
    cases l₂ with
    | nil => exact absurd (List.perm_nil.mp h) (by simp)
    | cons b t₂ => rfl

/-- `collectContents` succeeds exactly when every read succeeds. -/
theorem collectContents_ok_char (content : String → Except Error String) :
    ∀ l : List String,
      exceptOk (collectContents content l) = l.all fun f => exceptOk (content f) := by
  intro l
  induction l with
  | nil => rfl
  | cons f rest ih =>
    unfold collectContents
    rw [List.all_cons, ← ih]
    cases hc : content f with
    | error e =>
      cases hr : collectContents content rest with
      | error e₂ => rfl
      | ok tail => rfl
    | ok c =>
      cases hr : collectContents content rest with
      | error e => rfl
      | ok tail => rfl

/-- Success characterisation of `Animation.load` when the directory name
decoded: metadata readable plus the frame-file conditions. -/
theorem animLoad_ok_char (key : String) (d : AnimDirInput) :
    loadOk (Animation.load (.ok key) d.meta (.ok d.files) d.content) =
      (exceptOk d.meta && animFilesOk d) := by
  cases hm : d.meta with
  | error e => rfl
  | ok meta =>
    simp only [Animation.load]
    rw [show exceptOk (Except.ok meta : Except Error AnimationMetadata) = true from rfl,
        Bool.true_and]
    unfold animFilesOk
    have hperm := List.perm_insertionSort frameLE (d.files.filter acceptsFrameFile)
    cases hC : (decide ((d.files.filter acceptsFrameFile).length ≤ 1) ||
        (d.files.filter acceptsFrameFile).all fun f => (frameSortKey f).isSome) with
    | false =>
      rw [show sortFrameFiles d.files = none from by unfold sortFrameFiles; rw [hC]; rfl]
      rfl
    | true =>
      rw [show sortFrameFiles d.files =
            some ((d.files.filter acceptsFrameFile).insertionSort frameLE) from by
          unfold sortFrameFiles; rw [hC]; rfl,
        Bool.true_and]
      dsimp only
      cases hE : ((d.files.filter acceptsFrameFile).insertionSort frameLE).isEmpty with
      | true =>
        rw [perm_isEmpty_eq hperm] at hE
        rw [hE]
        rfl
      | false =>
        rw [perm_isEmpty_eq hperm] at hE
        rw [hE]
        rw [show ((d.files.filter acceptsFrameFile).all fun f => exceptOk (d.content f)) =
              exceptOk (collectContents d.content
                ((d.files.filter acceptsFrameFile).insertionSort frameLE)) from by
          rw [collectContents_ok_char]
          exact (perm_all_eq hperm _).symm]
        cases hcc : collectContents d.content
            ((d.files.filter acceptsFrameFile).insertionSort frameLE) with
        | error e => rfl
        | ok frames => rfl

/-- Success characterisation of the animation loop of `Pet::load`. -/
theorem loadAnimations_ok_char :
    ∀ ds : List AnimDirInput, loadOk (loadAnimations ds) = ds.all animDirOk := by
  intro ds
  induction ds with
  | nil => rfl
  | cons d rest ih =>
    rw [List.all_cons, ← ih]
    unfold animDirOk
    simp only [loadAnimations]
    cases hn : d.name with
    | error e => rfl
    | ok key =>
      dsimp only
      rw [show exceptOk (Except.ok key : Except Error String) = true from rfl, Bool.true_and]
      rw [← animLoad_ok_char key d]
      cases hA : Animation.load (.ok key) d.meta (.ok d.files) d.content with
      | none => rfl
      | some r =>
        cases r with
        | error e => rfl
        | ok a =>
          rw [show loadOk (some (.ok a) : Option (Except Error Animation)) = true from rfl,
              Bool.true_and]
          cases hrest : loadAnimations rest with
          | none => rfl
          | some r₂ =>
            cases r₂ with
            | error e => rfl
            | ok tail => rfl

/-- Success characterisation of `State.load`. -/
theorem stateLoad_ok_char (key : String) (d : StateDirInput) :
    exceptOk (State.load d.meta (.ok key) d.script) =
      (exceptOk d.meta &&
        (match d.script with
         | .error _ => false
         | .ok g => g.hasInit && g.hasUpdate)) := by
  unfold State.load
  cases hm : d.meta with
  | error e => rfl
  | ok meta =>
    cases hs : d.script with
    | error e => rfl
    | ok g =>
      dsimp only
      cases hi : g.hasInit with
      | false => rfl
      | true =>
        cases hu : g.hasUpdate with
        | false => rfl
        | true => rfl

/-- Success characterisation of the state loop of `Pet::load`. -/
theorem loadStates_ok_char :
    ∀ ds : List StateDirInput, exceptOk (loadStates ds) = ds.all stateDirOk := by
  intro ds
  induction ds with
  | nil => rfl
  | cons d rest ih =>
    rw [List.all_cons, ← ih]
    unfold stateDirOk
    simp only [loadStates]
    cases hn : d.name with
    | error e => rfl
    | ok key =>
      dsimp only
      rw [show exceptOk (Except.ok key : Except Error String) = true from rfl, Bool.true_and]
      rw [← stateLoad_ok_char key d]
      cases hS : State.load d.meta (.ok key) d.script with
      | error e => rfl
      | ok st =>
        rw [show exceptOk (Except.ok st : Except Error State) = true from rfl, Bool.true_and]
        cases hrest : loadStates rest with
        | error e => rfl
        | ok tail => rfl

/-- Claim C6, counterexample: `Pet::load` returns a pet even though its
`default_state` resolves to no state and its only state's default
animation resolves to no animation. -/
theorem c6_counterexample_no_resolvability_check :
    Pet.load fsUnresolved = some (.ok petUnresolved) ∧
    petUnresolved.states.lookup petUnresolved.metadata.default_state = none ∧
    petUnresolved.animations.lookup "missing_anim" = none ∧
    (petUnresolved.states.lookup "main").map (fun st => st.metadata.animation) =
      some "missing_anim" := by
  exact ⟨rfl, rfl, rfl, rfl⟩

/-- Claim C6, amended: `Pet::load` succeeds exactly when its metadata,
both directory enumerations, every animation directory (readable name and
metadata, at least one accepted frame file, no `u32` sort-key panic,
readable frames) and every state directory (readable name and metadata,
script executed, `Init` and `Update` defined) load — with no
resolvability requirement on `default_state` or on any state's default
animation. -/
theorem c6_load_success_iff_components (fs : PetFS) :
    petLoadOkB fs = fsComponentsOk fs := by
  unfold petLoadOkB fsComponentsOk Pet.load
  cases hm : fs.meta with
  | error e => rfl
  | ok metadata =>
    dsimp only
    rw [show exceptOk (Except.ok metadata : Except Error PetMetadata) = true from rfl,
        Bool.true_and]
    cases ha : fs.animDirs with
    | error e => rfl
    | ok ads =>
      dsimp only
      rw [← loadAnimations_ok_char ads]
      cases hla : loadAnimations ads with
      | none => rfl
      | some r =>
        cases r with
        | error e => rfl
        | ok animations =>
          dsimp only
          rw [show loadOk (some (.ok animations) :
                Option (Except Error (List (String × Animation)))) = true from rfl,
              Bool.true_and]
          cases hs : fs.stateDirs with
          | error e => rfl
          | ok sds =>
            dsimp only
            rw [← loadStates_ok_char sds]
            cases hls : loadStates sds with
            | error e => rfl
            | ok states => rfl

/-- Two sorted permutations of each other with pairwise-distinct sort
keys are equal. -/
theorem eq_of_perm_sorted_nodup_keys :
    ∀ {l₁ l₂ : List String}, l₁.Perm l₂ →
      l₁.Pairwise frameLE → l₂.Pairwise frameLE →
      (l₁.map frameKeyD).Nodup → l₁ = l₂ := by
  intro l₁
  induction l₁ with
  | nil =>
    intro l₂ h _ _ _
    exact (List.nil_perm.mp h).symm
  | cons a t₁ ih =>
    intro l₂ h s₁ s₂ nd
    cases l₂ with
    | nil => exact absurd (List.perm_nil.mp h) (List.cons_ne_nil a t₁)
    | cons b t₂ =>
      have hab : a = b := by
        by_contra hne
        have ha2 : a ∈ b :: t₂ := h.mem_iff.mp (List.mem_cons_self a t₁)
        have hb1 : b ∈ a :: t₁ := h.mem_iff.mpr (List.mem_cons_self b t₂)
        have hat2 : a ∈ t₂ := by
          cases List.mem_cons.mp ha2 with
          | inl hh => exact absurd hh hne
          | inr hh => exact hh
        have hbt1 : b ∈ t₁ := by
          cases List.mem_cons.mp hb1 with
          | inl hh => exact absurd hh.symm hne
          | inr hh => exact hh
        have h1 : frameKeyD a ≤ frameKeyD b := (List.pairwise_cons.mp s₁).1 b hbt1
        have h2 : frameKeyD b ≤ frameKeyD a := (List.pairwise_cons.mp s₂).1 a hat2
        have hkey : frameKeyD b = frameKeyD a := Nat.le_antisymm h2 h1
        have hmem : frameKeyD a ∈ t₁.map frameKeyD := by
          rw [← hkey]
          exact List.mem_map_of_mem frameKeyD hbt1
        rw [List.map_cons] at nd
        exact (List.nodup_cons.mp nd).1 hmem
      subst hab
      have ht : t₁.Perm t₂ := h.cons_inv
      have htail := ih ht (List.pairwise_cons.mp s₁).2 (List.pairwise_cons.mp s₂).2
        (by rw [List.map_cons] at nd; exact (List.nodup_cons.mp nd).2)
      rw [htail]

/-- Claim C7, counterexample: `1.txt` and `01.txt` carry the same parsed
key 1, and the stable sort then keeps enumeration order, so two
enumeration orders of the same directory yield two different frame
sequences. -/
theorem c7_counterexample_duplicate_keys :
    frameSortKey "1.txt" = some 1 ∧
    frameSortKey "01.txt" = some 1 ∧
    (["1.txt", "01.txt"] : List String).Perm ["01.txt", "1.txt"] ∧
    sortFrameFiles ["1.txt", "01.txt"] = some ["1.txt", "01.txt"] ∧
    sortFrameFiles ["01.txt", "1.txt"] = some ["01.txt", "1.txt"] ∧
    sortFrameFiles ["1.txt", "01.txt"] ≠ sortFrameFiles ["01.txt", "1.txt"] := by
  decide

/-- Claim C7, amended: the loaded frame sequence is sorted ascending by
the parsed key and is a permutation of the accepted files; it is
independent of directory enumeration order whenever the parsed keys are
pairwise distinct (with duplicate keys the stable sort keeps enumeration
order); in particular, for files `2.txt`, `0.txt`, `10.txt` every
enumeration order loads `[frame(0), frame(2), frame(10)]`. -/
theorem c7_frame_ordering_amended :
    (∀ (files out : List String), sortFrameFiles files = some out →
        out.Pairwise frameLE ∧ out.Perm (files.filter acceptsFrameFile)) ∧
    (∀ (files₁ files₂ out₁ out₂ : List String), files₁.Perm files₂ →
        ((files₁.filter acceptsFrameFile).map frameKeyD).Nodup →
        sortFrameFiles files₁ = some out₁ → sortFrameFiles files₂ = some out₂ →
        out₁ = out₂) ∧
    (Animation.load (.ok "a") (.ok { delay := 100 })
        (.ok ["2.txt", "0.txt", "10.txt"]) demoContent = demoExpected ∧
     Animation.load (.ok "a") (.ok { delay := 100 })
        (.ok ["0.txt", "2.txt", "10.txt"]) demoContent = demoExpected ∧
     Animation.load (.ok "a") (.ok { delay := 100 })
        (.ok ["0.txt", "10.txt", "2.txt"]) demoContent = demoExpected ∧
     Animation.load (.ok "a") (.ok { delay := 100 })
        (.ok ["2.txt", "10.txt", "0.txt"]) demoContent = demoExpected ∧
     Animation.load (.ok "a") (.ok { delay := 100 })
        (.ok ["10.txt", "0.txt", "2.txt"]) demoContent = demoExpected ∧
     Animation.load (.ok "a") (.ok { delay := 100 })
        (.ok ["10.txt", "2.txt", "0.txt"]) demoContent = demoExpected) := by
  have ha : ∀ (files out : List String), sortFrameFiles files = some out →
      out.Pairwise frameLE ∧ out.Perm (files.filter acceptsFrameFile) := by
    intro files out h
    unfold sortFrameFiles at h
    split at h
    · cases h
      exact ⟨List.sorted_insertionSort frameLE _, List.perm_insertionSort frameLE _⟩
    · cases h
  refine ⟨ha, ?_, by decide, by decide, by decide, by decide, by decide, by decide⟩
  intro files₁ files₂ out₁ out₂ hp hnd h₁ h₂
  obtain ⟨s₁, p₁⟩ := ha files₁ out₁ h₁
  obtain ⟨s₂, p₂⟩ := ha files₂ out₂ h₂
  have pacc : (files₁.filter acceptsFrameFile).Perm (files₂.filter acceptsFrameFile) :=
    hp.filter acceptsFrameFile
  have pout : out₁.Perm out₂ := (p₁.trans pacc).trans p₂.symm
  have hnd₁ : (out₁.map frameKeyD).Nodup := ((p₁.map frameKeyD).nodup_iff).mpr hnd
  exact eq_of_perm_sorted_nodup_keys pout s₁ s₂ hnd₁

/-- Closed witness for `c7_frame_ordering_amended` at the three-file
example. -/
theorem c7_frame_ordering_amended_witness :
    (["0.txt", "2.txt", "10.txt"] : List String).Pairwise frameLE ∧
    (["0.txt", "2.txt", "10.txt"] : List String).Perm
      (["2.txt", "0.txt", "10.txt"].filter acceptsFrameFile) :=
  c7_frame_ordering_amended.1 ["2.txt", "0.txt", "10.txt"] ["0.txt", "2.txt", "10.txt"]
    (by decide)

end ADuk
